import Mathlib

/-!
Verification development for the `webapi` command-line HTTP client
(`src/webapi/credentials.py`, `src/webapi/caller.py`, `src/webapi/main.py`).
The Python code is shallowly embedded: classes become structures, raised
exceptions become `Except` errors, the process environment and the file
system become explicit finite maps, and object aliasing (for the
deep-copy claims) is made explicit through a small store of addresses.
-/

/- ===== Python-like primitive values ===== -/

/-- Single-quote character, written via its code point. -/
def squoteChar : Char := Char.ofNat 39

/-- Double-quote character, written via its code point. -/
def dquoteChar : Char := Char.ofNat 34

/-- JSON-serializable Python values (`TypeJson`): `None`, booleans,
integers, strings, lists and string-keyed dicts. -/
inductive PyVal where
  | none
  | bool (b : Bool)
  | int (n : Int)
  | str (s : String)
  | list (xs : List PyVal)
  | dict (kvs : List (String × PyVal))

/-- Python truthiness (`if value:`): `None`, `False`, `0`, `""`, `[]`,
and the empty dict are falsy; everything else is truthy. -/
def PyVal.truthy : PyVal → Bool
  | .none => false
  | .bool b => b
  | .int n => if n = 0 then false else true
  | .str s => if s = "" then false else true
  | .list xs => !xs.isEmpty
  | .dict kvs => !kvs.isEmpty

/-- Python `str()` of a value, as used by f-string interpolation of header
values. Container cases mirror `str` falling back to `repr`-like text only
where the program needs them (header values are strings in practice). -/
def pyStrOf : PyVal → String
  | .none => "None"
  | .bool b => if b then "True" else "False"
  | .int n => toString n
  | .str s => s
  | .list _ => "[...]"
  | .dict _ => "\x7b...\x7d"

/-- Substring containment: `t` occurs contiguously inside `s`
(Python `t in s`). -/
def strContains (s t : String) : Prop := t.data <:+: s.data

instance (s t : String) : Decidable (strContains s t) :=
  inferInstanceAs (Decidable (t.data <:+: s.data))

/-- Escape of one character inside a Python `repr` string literal using
quote character `q`: backslash and the quote are escaped, as are the
common control characters. (Other non-printables are left as-is; the
program never prints them.) -/
def pyReprChar (q c : Char) : List Char :=
  if c = '\\' then ['\\', '\\']
  else if c = q then ['\\', c]
  else if c = '\n' then ['\\', 'n']
  else if c = '\r' then ['\\', 'r']
  else if c = '\t' then ['\\', 't']
  else [c]

/-- Whether a string contains a given character. -/
def containsChar (s : String) (c : Char) : Bool :=
  s.data.any (fun x => x == c)

/-- The quote character chosen by Python `repr` for a string: a single
quote, unless the string contains a single quote and no double quote, in
which case a double quote. -/
def pyQuoteChar (s : String) : Char :=
  if containsChar s squoteChar && !(containsChar s dquoteChar)
  then dquoteChar else squoteChar

/-- Python `repr` of a string, as produced by the `!r` format spec:
quoted with `pyQuoteChar`, quote and backslash characters escaped. -/
def pyStrRepr (s : String) : String :=
  String.mk (pyQuoteChar s
    :: (s.data.map (pyReprChar (pyQuoteChar s))).flatten ++ [pyQuoteChar s])

/-- Python `repr` of an `int` (its decimal form). -/
def pyIntRepr (n : Int) : String := toString n

/-- ASCII upper-casing of one character, mirroring `str.upper()` on the
ASCII inputs the program uses. -/
def pyUpperChar (c : Char) : Char :=
  if 97 ≤ c.toNat ∧ c.toNat ≤ 122 then Char.ofNat (c.toNat - 32) else c

/-- Python `str.upper()` (ASCII). -/
def pyUpper (s : String) : String := String.mk (s.data.map pyUpperChar)

/-- Python `str.startswith(pre)`. -/
def pyStartsWith (s pre : String) : Bool := pre.data.isPrefixOf s.data

/-- Whitespace test used by `int(str)` stripping. -/
def isSpaceCh (c : Char) : Bool :=
  c == ' ' || c == '\t' || c == '\n' || c == '\r' || c == '\x0b' || c == '\x0c'

/-- Strip leading and trailing whitespace from a character list. -/
def pyStripWs (l : List Char) : List Char :=
  ((l.dropWhile isSpaceCh).reverse.dropWhile isSpaceCh).reverse

/-- Digits of a character list folded into a natural number. -/
def digitsToNat (l : List Char) : Nat :=
  l.foldl (fun acc c => acc * 10 + (c.toNat - 48)) 0

/-- Python `int(str)`: strips whitespace, accepts an optional sign and a
non-empty digit string; `Option.none` models `ValueError`. (Underscore
digit grouping is not modelled; the program never relies on it.) -/
def pyIntOfString (s : String) : Option Int :=
  let t := pyStripWs s.data
  let signDigits : Int × List Char :=
    match t with
    | '+' :: rest => (1, rest)
    | '-' :: rest => (-1, rest)
    | l => (1, l)
  if signDigits.2.isEmpty then Option.none
  else if signDigits.2.all Char.isDigit then
    some (signDigits.1 * Int.ofNat (digitsToNat signDigits.2))
  else Option.none

/-- Join a list of strings with a separator (Python `sep.join(parts)`). -/
def joinWith (sep : String) : List String → String
  | [] => ""
  | [x] => x
  | x :: y :: rest => x ++ sep ++ joinWith sep (y :: rest)

/-- Escape of one character inside a JSON string literal. -/
def jsonEscapeChar (c : Char) : List Char :=
  if c = '\\' then ['\\', '\\']
  else if c = dquoteChar then ['\\', dquoteChar]
  else if c = '\n' then ['\\', 'n']
  else if c = '\r' then ['\\', 'r']
  else if c = '\t' then ['\\', 't']
  else [c]

/-- JSON string literal (double-quoted, escaped), as in `json.dumps`. -/
def jsonQuote (s : String) : String :=
  String.mk (dquoteChar :: (s.data.map jsonEscapeChar).flatten ++ [dquoteChar])

mutual

/-- Python `json.dumps(value)` with the default separators
`", "` and `": "`. -/
def jsonDumps : PyVal → String
  | .none => "null"
  | .bool b => if b then "true" else "false"
  | .int n => toString n
  | .str s => jsonQuote s
  | .list xs => "[" ++ joinWith ", " (jsonDumpsList xs) ++ "]"
  | .dict kvs => "\x7b" ++ joinWith ", " (jsonDumpsPairs kvs) ++ "\x7d"

/-- `json.dumps` of each element of a list. -/
def jsonDumpsList : List PyVal → List String
  | [] => []
  | v :: vs => jsonDumps v :: jsonDumpsList vs

/-- `json.dumps` of each key-value pair of a dict. -/
def jsonDumpsPairs : List (String × PyVal) → List String
  | [] => []
  | (k, v) :: vs => (jsonQuote k ++ ": " ++ jsonDumps v) :: jsonDumpsPairs vs

end

/- ===== Errors raised by the program ===== -/

/-- Exceptions raised by the embedded code. `keyError` models missing
mapping keys (the spec's `MissingFieldError`), `fileNotFound` models
`FileNotFoundError` (the spec's `NotFoundError`), `valueError` models
`int()` parse failures, `assertionError` the failed
`assert path.startswith("/")` (the spec's `InvalidPathError`),
`attributeError` a missing object attribute, and `clickException` a
`click.ClickException` carrying a user-facing message (the spec's
`NotAuthenticatedError` when the message directs to `auth`). -/
inductive PyError where
  | keyError (key : String)
  | fileNotFound
  | valueError (text : String)
  | assertionError
  | attributeError (typeName attrName : String)
  | clickException (message : String)
  deriving DecidableEq

/- ===== credentials.py: Credentials / AuthenticatedCredentials ===== -/

/-- Purge hooks attached to a credential. The only hook the program ever
constructs is `partial(path.unlink, missing_ok=True)` in
`restore_credentials` (main.py), which deletes the credential file. -/
inductive PurgeHook where
  | unlinkFile (path : String)
  deriving DecidableEq

/-- `AuthenticatedCredentials` (credentials.py): host, port, access token
and the optional `_on_purge` callback (`None` at construction). -/
structure AuthenticatedCredentials where
  host : String
  port : Int
  access_token : String
  onPurgeHook : Option PurgeHook
  deriving DecidableEq

/-- `Credentials` (credentials.py): the unauthenticated credential with
host, port, username and password. -/
structure Credentials where
  host : String
  port : Int
  username : String
  password : String
  deriving DecidableEq

/-- `AuthenticatedCredentials.__repr__`:
`f"{cls}({self._host!r}, {self._port!r}, '****')"` — the access token is
replaced by the fixed mask. -/
def AuthenticatedCredentials.reprStr (c : AuthenticatedCredentials) : String :=
  "AuthenticatedCredentials(" ++ pyStrRepr c.host ++ ", " ++ pyIntRepr c.port
    ++ ", '****')"

/-- `Credentials.__repr__`:
`f"{cls}({host!r}, {port!r}, {username!r}, '****')"` — the username is
interpolated, the password is replaced by the fixed mask. -/
def Credentials.reprStr (c : Credentials) : String :=
  "Credentials(" ++ pyStrRepr c.host ++ ", " ++ pyIntRepr c.port ++ ", "
    ++ pyStrRepr c.username ++ ", '****')"

/-- `on_purge(func)`: stores the hook and returns the credential. -/
def AuthenticatedCredentials.on_purge (c : AuthenticatedCredentials)
    (hook : PurgeHook) : AuthenticatedCredentials :=
  { c with onPurgeHook := some hook }

/-- The process environment: a partial map from variable names to values. -/
abbrev Env := String → Option String

/-- The parsed TOML credential document restricted to the three keys the
program reads; a `Option.none` field models an absent key. -/
structure CredDoc where
  host : Option String
  port : Option Int
  access_token : Option String
  deriving DecidableEq

/-- The file system as seen by the program: a partial map from paths to
parsed credential documents; `Option.none` means the file does not exist. -/
abbrev FileSys := String → Option CredDoc

/-- `purge()`: if a hook is attached, invoke it (here: its effect on the
file system — `unlink(missing_ok=True)` removes the file if present);
with no hook attached it is a no-op and never raises. -/
def AuthenticatedCredentials.purgeEffect (c : AuthenticatedCredentials)
    (fs : FileSys) : FileSys :=
  match c.onPurgeHook with
  | some (.unlinkFile p) => fun q => if q = p then Option.none else fs q
  | Option.none => fs

/-- `AuthenticatedCredentials.from_file(path)`: a missing file raises
`FileNotFoundError`; the keys `host`, `port`, `access_token` are read in
that order, a missing one raising `KeyError`; on success the credential is
returned with no purge hook attached. -/
def AuthenticatedCredentials.from_file (fs : FileSys) (path : String) :
    Except PyError AuthenticatedCredentials :=
  match fs path with
  | Option.none => .error .fileNotFound
  | some doc =>
    match doc.host with
    | Option.none => .error (.keyError "host")
    | some h =>
      match doc.port with
      | Option.none => .error (.keyError "port")
      | some p =>
        match doc.access_token with
        | Option.none => .error (.keyError "access_token")
        | some t => .ok ⟨h, p, t, Option.none⟩

/-- `AuthenticatedCredentials.from_env(prefix)`: reads
`{prefix}HOST`, `{prefix}PORT`, `{prefix}ACCESS_TOKEN` via `itemgetter`
(raising `KeyError` at the first absent name, in that order), then parses
the port with `int()` (raising `ValueError` on failure). `None` as the
prefix argument is replaced by the empty string (`prefix or ""`). -/
def AuthenticatedCredentials.from_env (env : Env) (pfx : Option String) :
    Except PyError AuthenticatedCredentials :=
  let pre := pfx.getD ""
  match env (pre ++ "HOST") with
  | Option.none => .error (.keyError (pre ++ "HOST"))
  | some h =>
    match env (pre ++ "PORT") with
    | Option.none => .error (.keyError (pre ++ "PORT"))
    | some p =>
      match env (pre ++ "ACCESS_TOKEN") with
      | Option.none => .error (.keyError (pre ++ "ACCESS_TOKEN"))
      | some t =>
        match pyIntOfString p with
        | Option.none => .error (.valueError p)
        | some n => .ok ⟨h, n, t, Option.none⟩

/- ===== main.py: credential resolution and the 401 handler ===== -/

/-- `_path_to_credentials(appname)`:
`Path(".") / ("." + appname) / "credentials"` rendered as a string (the
leading `.` path component is dropped by `pathlib`). -/
def _path_to_credentials (appname : String) : String :=
  "." ++ appname ++ "/credentials"

/-- `click.style(s, fg="red", bold=True)`: the ANSI color and bold
introducers around `s`, followed by the reset code. -/
def clickStyleRedBold (s : String) : String :=
  "\x1b[31m" ++ "\x1b[1m" ++ s ++ "\x1b[0m"

/-- The message of the `click.ClickException` raised by
`restore_credentials` when no credential source is available; it directs
the user to the `auth` subcommand. -/
def notAuthenticatedMessage : String :=
  "No yet authenticated. Please authenticate using the "
    ++ clickStyleRedBold "'auth'" ++ " subcommand first."

/-- `restore_credentials(appname)` (main.py): tries
`Credentials.from_env(prefix=appname.upper() + "_")` with `KeyError`
suppressed (any other error propagates); on `KeyError` falls through to
`Credentials.from_file(_path_to_credentials(appname))`, attaching the
file-removal purge hook on success; `FileNotFoundError` from the file
branch becomes the `click.ClickException` directing to `auth`; other
file errors (missing fields) propagate. -/
def restore_credentials (env : Env) (fs : FileSys) (appname : String) :
    Except PyError AuthenticatedCredentials :=
  match AuthenticatedCredentials.from_env env (some (pyUpper appname ++ "_")) with
  | .ok c => .ok c
  | .error (.keyError _) =>
    let path := _path_to_credentials appname
    match AuthenticatedCredentials.from_file fs path with
    | .ok c => .ok (c.on_purge (.unlinkFile path))
    | .error .fileNotFound => .error (.clickException notAuthenticatedMessage)
    | .error e => .error e
  | .error e => .error e

/- ===== caller.py: Caller and _Request ===== -/

/-- Addresses of Python objects in the explicit store. -/
abbrev Addr := Nat

/-- A store of Python objects, making aliasing explicit: an address is an
index into the list. Values are held structurally, so placing a value at
a fresh address is exactly `copy.deepcopy`. -/
structure Store where
  objs : List PyVal

/-- Read the object at an address. -/
def Store.read (st : Store) (a : Addr) : Option PyVal := st.objs[a]?

/-- Allocate a new object, returning the extended store and its address. -/
def Store.alloc (st : Store) (v : PyVal) : Store × Addr :=
  (⟨st.objs ++ [v]⟩, st.objs.length)

/-- Mutate the object at an address in place. -/
def Store.write (st : Store) (a : Addr) (v : PyVal) : Store :=
  ⟨st.objs.set a v⟩

/-- `copy.deepcopy` of a structurally held value. -/
def deepcopy (v : PyVal) : PyVal := v

/-- `Caller` (caller.py): holds the restored credential (the `session`
attribute) and the injected `credential_applier`, which maps the
credential and a header mapping to the headers with authentication
applied. -/
structure Caller where
  session : AuthenticatedCredentials
  credential_applier :
    AuthenticatedCredentials → List (String × String) → List (String × String)

/-- `Caller.apply_credential(headers)`:
`self._credential_applier(self._session, headers)`. -/
def Caller.apply_credential (c : Caller) (headers : List (String × String)) :
    List (String × String) :=
  c.credential_applier c.session headers

/-- `Caller._Request` (caller.py): the bound caller, the upper-cased
method, the path, the address of the deep-copied headers dict, and the
address of the body object exactly as passed (`self._data = data`;
`Option.none` is Python `None`). -/
structure Request where
  caller : Caller
  method : String
  path : String
  headersAddr : Addr
  dataAddr : Option Addr

/-- The headers object stored by `_Request.__init__`:
`copy.deepcopy(headers) if headers else dict()` — a deep copy of a truthy
headers argument, a fresh empty dict for `None` or an empty dict. -/
def headersCopied (st : Store) (headersIn : Option Addr) : PyVal :=
  let hv : PyVal :=
    match headersIn with
    | some a => (st.read a).getD PyVal.none
    | Option.none => PyVal.none
  if hv.truthy then deepcopy hv else PyVal.dict []

/-- The store and request produced by `_Request.__init__` once the path
assertion has passed: the copied headers live at a fresh address, the
method is upper-cased, and the body reference is stored unchanged
(`self._data = data`). -/
def requestBuilt (st : Store) (c : Caller) (method path : String)
    (headersIn dataIn : Option Addr) : Store × Request :=
  ((st.alloc (headersCopied st headersIn)).1,
   { caller := c, method := pyUpper method, path := path,
     headersAddr := (st.alloc (headersCopied st headersIn)).2,
     dataAddr := dataIn })

/-- `Caller.request(method, path, headers=..., body=...)`, which runs
`_Request.__init__`: asserts the path starts with `/`
(`AssertionError`, the spec's `InvalidPathError`), then builds the
request. -/
def Caller.request (st : Store) (c : Caller) (method path : String)
    (headersIn dataIn : Option Addr) :
    Except PyError (Store × Request) :=
  if pyStartsWith path "/" then .ok (requestBuilt st c method path headersIn dataIn)
  else .error .assertionError

/-- `_Request.url()`:
`f"https://{self._caller.session.host}:{self._caller.session.port}{self._path}"`.
(The `lru_cache` wrapper is modelled separately by `lruCall1`.) -/
def Request.url (r : Request) : String :=
  "https://" ++ r.caller.session.host ++ ":" ++ pyIntRepr r.caller.session.port
    ++ r.path

/-- View a stored headers object as the `dict[str, str]` items the code
iterates over; values are rendered with `str()` as the f-string does.
(The stored headers object is always a dict by construction.) -/
def dictItems : PyVal → List (String × String)
  | .dict kvs => kvs.map (fun kv => (kv.1, pyStrOf kv.2))
  | _ => []

/-- `_Request.headers()`:
`self._caller.apply_credential(self._headers)` on the stored headers
object. (The `lru_cache` wrapper is modelled separately by `lruCall1`.) -/
def Request.headersVal (st : Store) (r : Request) : List (String × String) :=
  r.caller.apply_credential (dictItems ((st.read r.headersAddr).getD (PyVal.dict [])))

/-- The body object the request renders and sends: the object currently
at the stored body address (`self._data`), or `None`. -/
def Request.dataVal (st : Store) (r : Request) : PyVal :=
  match r.dataAddr with
  | some a => (st.read a).getD PyVal.none
  | Option.none => PyVal.none

/-- The fixed first tokens of `similar_of_curl`:
`["curl", "-X", method, url]`. -/
def Request.curlBase (r : Request) : List String :=
  ["curl", "-X", r.method, r.url]

/-- The header tokens of `similar_of_curl`: for each applied header,
`["-H", repr(f"{key}: {value}")]`. -/
def Request.curlHeaderTokens (st : Store) (r : Request) : List String :=
  ((r.headersVal st).map
    (fun kv => ["-H", pyStrRepr (kv.1 ++ ": " ++ kv.2)])).flatten

/-- The body tokens of `similar_of_curl`, appended only when the body is
truthy: the `Content-Type` header flag and `--data` with
`repr(json.dumps(body))`. -/
def Request.curlDataTokens (st : Store) (r : Request) : List String :=
  ["-H", pyStrRepr "Content-Type: application/json",
   "--data", pyStrRepr (jsonDumps (r.dataVal st))]

/-- `_Request.similar_of_curl()` as the list `cmdline` it builds: base
tokens, header tokens, and — only if `self._data` is truthy — the
`Content-Type` and `--data` tokens. -/
def Request.similar_of_curl_tokens (st : Store) (r : Request) : List String :=
  r.curlBase ++ r.curlHeaderTokens st
    ++ (if (r.dataVal st).truthy then r.curlDataTokens st else [])

/-- `_Request.similar_of_curl()`'s return value: `" ".join(cmdline)`. -/
def Request.similar_of_curl (st : Store) (r : Request) : String :=
  joinWith " " (r.similar_of_curl_tokens st)

/- ===== lru_cache(maxsize=1) on url()/headers() ===== -/

/-- The state of one `@lru_cache(maxsize=1)`-decorated method: at most one
cached entry, keyed by the `self` argument (here an instance number),
shared by every instance of the class. -/
structure LruCache1 (α : Type) where
  entry : Option (Nat × α)

/-- One call through `lru_cache(maxsize=1)`: a hit returns the cached
value; a miss computes `f i`, replaces the single cache entry, and
reports that the underlying computation ran (third component `true`). -/
def lruCall1 {α : Type} (f : Nat → α) (c : LruCache1 α) (i : Nat) :
    α × LruCache1 α × Bool :=
  match c.entry with
  | some (j, v) => if j = i then (v, c, false) else (f i, ⟨some (i, f i)⟩, true)
  | Option.none => (f i, ⟨some (i, f i)⟩, true)

/-- Run a sequence of calls (each identified by the calling instance)
through one shared `lru_cache(maxsize=1)` cache, recording for each call
the instance, the returned value, and whether the body was recomputed. -/
def lruRun {α : Type} (f : Nat → α) : LruCache1 α → List Nat → List (Nat × α × Bool)
  | _, [] => []
  | c, i :: rest =>
    let out := lruCall1 f c i
    (i, out.1, out.2.2) :: lruRun f out.2.1 rest

/-- How many times the underlying computation ran for instance `i` during
a call sequence. -/
def lruMissCount {α : Type} (f : Nat → α) (c : LruCache1 α) (calls : List Nat)
    (i : Nat) : Nat :=
  ((lruRun f c calls).filter (fun t => t.1 == i && t.2.2)).length

/-- The `url()` computation of the instance numbered `i` among the given
requests (the per-instance pure function cached by `lru_cache`). -/
def urlOfIdx (reqs : List Request) (i : Nat) : String :=
  match reqs[i]? with
  | some r => r.url
  | Option.none => ""

/-- The `headers()` computation of the instance numbered `i` among the
given requests; each run applies the `credential_applier` once. -/
def headersOfIdx (st : Store) (reqs : List Request) (i : Nat) :
    List (String × String) :=
  match reqs[i]? with
  | some r => r.headersVal st
  | Option.none => []

/- ===== main.py: the except-HttpResponseError handler of `call` ===== -/

/-- The attributes reachable on a `Caller` object. -/
inductive CallerAttr where
  | sessionAttr (s : AuthenticatedCredentials)
  | applierFn
  | boundMethod (name : String)

/-- Python attribute lookup on a `Caller` instance: class `Caller`
(caller.py) defines the property `session`, the methods `request` and
`apply_credential`, and `__init__` sets `_session` and
`_credential_applier`; any other name raises `AttributeError`. -/
def Caller.getattr (c : Caller) (name : String) : Option CallerAttr :=
  if name = "session" then some (.sessionAttr c.session)
  else if name = "_session" then some (.sessionAttr c.session)
  else if name = "request" then some (.boundMethod "request")
  else if name = "apply_credential" then some (.boundMethod "apply_credential")
  else if name = "_credential_applier" then some .applierFn
  else Option.none

/-- The `except HttpResponseError` handler of the `call` command
(main.py lines 199-205): when the caught error's status code is 401 it
evaluates `caller.credentials.purge()` — an attribute lookup of
`credentials` on the `Caller` object followed by `purge()`; any other
status leaves the file system untouched and only prints. The result is
the file system afterwards plus the exception the handler itself raises,
if any. -/
def callExceptHandler (c : Caller) (fs : FileSys) (statusCode : Int) :
    FileSys × Option PyError :=
  if statusCode = 401 then
    match c.getattr "credentials" with
    | some (.sessionAttr s) => (s.purgeEffect fs, Option.none)
    | some _ => (fs, some (.attributeError "function" "purge"))
    | Option.none => (fs, some (.attributeError "Caller" "credentials"))
  else (fs, Option.none)

/- ===== Concrete instances used to evaluate the definitions ===== -/

/-- Identity credential applier, as used by the caller tests
(`lambda _credentials, headers: headers`). -/
def idApplier :
    AuthenticatedCredentials → List (String × String) → List (String × String) :=
  fun _ hs => hs

/-- A token-stamping credential applier, as `dummy.auth.credential_applier`
adds `Authorization: Bearer <token>`. -/
def bearerApplier :
    AuthenticatedCredentials → List (String × String) → List (String × String) :=
  fun c hs => hs ++ [("Authorization", "Bearer " ++ c.access_token)]

/-- A sample restored credential. -/
def exCred : AuthenticatedCredentials :=
  ⟨"www.example.com", 9999, "**TOKEN**", Option.none⟩

/-- A sample caller over `exCred` with the identity applier. -/
def exCaller : Caller := ⟨exCred, idApplier⟩

/-- An environment holding the three `WEBAPI_`-prefixed variables. -/
def envEx : Env := fun k =>
  if k = "WEBAPI_HOST" then some "www.example.org"
  else if k = "WEBAPI_PORT" then some "9999"
  else if k = "WEBAPI_ACCESS_TOKEN" then some "SECRET_ACCESS_TOKEN"
  else Option.none

/-- An environment with no variables set. -/
def envEmpty : Env := fun _ => Option.none

/-- A file system holding a complete credential file for appname
`webapi`, with values different from `envEx`'s. -/
def fsEx : FileSys := fun p =>
  if p = ".webapi/credentials"
  then some ⟨some "www2.example.org", some 4321, some "FILE_TOKEN"⟩
  else Option.none

/-- A file system whose credential file is missing `access_token`. -/
def fsNoToken : FileSys := fun p =>
  if p = ".webapi/credentials"
  then some ⟨some "www2.example.org", some 4321, Option.none⟩
  else Option.none

/-- A file system with no credential file. -/
def fsEmpty : FileSys := fun _ => Option.none

/-- Store for the deep-copy counterexample: the caller's body object at
address 0, the caller's headers object at address 1. -/
def c4store0 : Store :=
  ⟨[PyVal.dict [("name", PyVal.str "alice")], PyVal.dict [("Foo", PyVal.str "bar")]]⟩

/-- The store after `request(...)` copied the headers to address 2. -/
def c4store1 : Store :=
  ⟨[PyVal.dict [("name", PyVal.str "alice")], PyVal.dict [("Foo", PyVal.str "bar")],
    PyVal.dict [("Foo", PyVal.str "bar")]]⟩

/-- The request built from `c4store0`: headers copied to address 2, body
still the caller's object at address 0. -/
def c4req : Request :=
  { caller := exCaller, method := "POST", path := "/post",
    headersAddr := 2, dataAddr := some 0 }

/-- The store after the caller mutates its own body object in place. -/
def c4store2 : Store :=
  c4store1.write 0 (PyVal.dict [("name", PyVal.str "bob")])

/-- Two requests sharing one caller, distinct instances for the
`lru_cache` model. -/
def c5reqA : Request :=
  { caller := exCaller, method := "GET", path := "/a",
    headersAddr := 0, dataAddr := Option.none }

/-- Second request instance, with a different path. -/
def c5reqB : Request :=
  { caller := exCaller, method := "GET", path := "/b",
    headersAddr := 0, dataAddr := Option.none }

/-- The instance table for the `lru_cache` model: instance 0 is
`c5reqA`, instance 1 is `c5reqB`. -/
def c5reqs : List Request := [c5reqA, c5reqB]

/-- Store for the curl-flag counterexample: the caller's headers object,
itself containing a `Content-Type: application/json` entry. -/
def c10store0 : Store :=
  ⟨[PyVal.dict [("Content-Type", PyVal.str "application/json")]]⟩

/-- The store after `request(...)` copied those headers to address 1. -/
def c10store1 : Store :=
  ⟨[PyVal.dict [("Content-Type", PyVal.str "application/json")],
    PyVal.dict [("Content-Type", PyVal.str "application/json")]]⟩

/-- The request built from `c10store0` with body `None`. -/
def c10req : Request :=
  { caller := exCaller, method := "GET", path := "/x",
    headersAddr := 1, dataAddr := Option.none }

/- ===== Helper lemmas ===== -/

/-- Concatenation of the data of two strings. -/
theorem strData_append (a b : String) : (a ++ b).data = a.data ++ b.data := by
  cases a; cases b; rfl

/-- Every string contains itself. -/
theorem strContains_refl (t : String) : strContains t t := List.infix_refl _

/-- Containment persists when text is appended on the right. -/
theorem strContains_append_left (a b t : String) (h : strContains a t) :
    strContains (a ++ b) t := by
  unfold strContains at h ⊢
  rw [strData_append]
  exact h.trans (List.prefix_append a.data b.data).isInfix

/-- Containment persists when text is prepended on the left. -/
theorem strContains_append_right (a b t : String) (h : strContains b t) :
    strContains (a ++ b) t := by
  unfold strContains at h ⊢
  rw [strData_append]
  exact h.trans (List.suffix_append a.data b.data).isInfix

/-- Containment is transitive through an intermediate string. -/
theorem strContains_trans (s m t : String) (h1 : strContains s m)
    (h2 : strContains m t) : strContains s t :=
  List.IsInfix.trans h2 h1

/- ===== C1: environment precedence in credential resolution ===== -/

/-- C1: Credential resolution precedence — whenever the three prefixed
environment variables are all set with a parseable port, and a complete
credential file is also present, `restore_credentials` returns the
environment-sourced credential in its entirety: host, port and access
token all come from the environment and no field is taken from the
file (the result is also hook-free, as `from_env` built it). -/
theorem restore_credentials_env_precedence (env : Env) (fs : FileSys)
    (appname eh ep et : String) (n : Int) (doc : CredDoc)
    (fh ft : String) (fp : Int)
    (h1 : env ((pyUpper appname ++ "_") ++ "HOST") = some eh)
    (h2 : env ((pyUpper appname ++ "_") ++ "PORT") = some ep)
    (h3 : env ((pyUpper appname ++ "_") ++ "ACCESS_TOKEN") = some et)
    (h4 : pyIntOfString ep = some n)
    (h5 : fs (_path_to_credentials appname) = some doc)
    (h6 : doc.host = some fh) (h7 : doc.port = some fp)
    (h8 : doc.access_token = some ft) :
    restore_credentials env fs appname = .ok ⟨eh, n, et, Option.none⟩ := by
  unfold restore_credentials AuthenticatedCredentials.from_env
  simp only [Option.getD_some, h1, h2, h3, h4]

/-- Witness for C1 at a concrete environment and file system holding
different credentials. -/
theorem restore_credentials_env_precedence_witness :
    restore_credentials envEx fsEx "webapi"
      = .ok ⟨"www.example.org", 9999, "SECRET_ACCESS_TOKEN", Option.none⟩ :=
  restore_credentials_env_precedence envEx fsEx "webapi" "www.example.org"
    "9999" "SECRET_ACCESS_TOKEN" 9999
    ⟨some "www2.example.org", some 4321, some "FILE_TOKEN"⟩
    "www2.example.org" "FILE_TOKEN" 4321
    (by decide) (by decide) (by decide) (by decide) (by decide) rfl rfl rfl

/- ===== C3: missing-both resolution failure ===== -/

/-- C3: Missing-both failure — when none of the three prefixed
environment variables is set and the credential file does not exist,
`restore_credentials` fails with the distinguished `click.ClickException`
(the spec's `NotAuthenticatedError`) whose message directs the user to
the `auth` subcommand; the error is that exception, not the suppressed
`KeyError` of the environment fallback. -/
theorem restore_credentials_missing_both (env : Env) (fs : FileSys)
    (appname : String)
    (h1 : env ((pyUpper appname ++ "_") ++ "HOST") = Option.none)
    (h2 : env ((pyUpper appname ++ "_") ++ "PORT") = Option.none)
    (h3 : env ((pyUpper appname ++ "_") ++ "ACCESS_TOKEN") = Option.none)
    (h4 : fs (_path_to_credentials appname) = Option.none) :
    restore_credentials env fs appname
      = .error (.clickException notAuthenticatedMessage)
    ∧ strContains notAuthenticatedMessage "'auth'"
    ∧ strContains notAuthenticatedMessage "authenticate" := by
  refine ⟨?_, by decide, by decide⟩
  unfold restore_credentials AuthenticatedCredentials.from_env
    AuthenticatedCredentials.from_file
  simp only [Option.getD_some, h1, h4]

/-- Witness for C3 at the empty environment and empty file system. -/
theorem restore_credentials_missing_both_witness :
    restore_credentials envEmpty fsEmpty "webapi"
      = .error (.clickException notAuthenticatedMessage)
    ∧ strContains notAuthenticatedMessage "'auth'"
    ∧ strContains notAuthenticatedMessage "authenticate" :=
  restore_credentials_missing_both envEmpty fsEmpty "webapi" rfl rfl rfl rfl

/- ===== C7: from_file error discrimination ===== -/

/-- C7: `from_file` error discrimination — a non-existent file yields
`FileNotFoundError` (the spec's `NotFoundError`); an existing file whose
parsed document lacks `host`, `port` or `access_token` yields a
`KeyError` (the spec's `MissingFieldError`); a well-formed file yields
the credential with no purge hook attached. -/
theorem from_file_error_discrimination (fs : FileSys) (path : String) :
    (fs path = Option.none →
      AuthenticatedCredentials.from_file fs path = .error .fileNotFound)
    ∧ (∀ doc : CredDoc, fs path = some doc →
        (doc.host = Option.none ∨ doc.port = Option.none
          ∨ doc.access_token = Option.none) →
        ∃ k, AuthenticatedCredentials.from_file fs path = .error (.keyError k))
    ∧ (∀ (doc : CredDoc) (fh ft : String) (fp : Int), fs path = some doc →
        doc.host = some fh → doc.port = some fp → doc.access_token = some ft →
        AuthenticatedCredentials.from_file fs path
          = .ok ⟨fh, fp, ft, Option.none⟩) := by
  refine ⟨?_, ?_, ?_⟩
  · intro hmiss
    unfold AuthenticatedCredentials.from_file
    simp only [hmiss]
  · intro doc hdoc hlack
    unfold AuthenticatedCredentials.from_file
    rcases hh : doc.host with _ | fh
    · exact ⟨"host", by simp only [hdoc, hh]⟩
    · rcases hp : doc.port with _ | fp
      · exact ⟨"port", by simp only [hdoc, hh, hp]⟩
      · rcases ht : doc.access_token with _ | ft
        · exact ⟨"access_token", by simp only [hdoc, hh, hp, ht]⟩
        · rcases hlack with h | h | h <;> simp_all
  · intro doc fh ft fp hdoc hh hp ht
    unfold AuthenticatedCredentials.from_file
    simp only [hdoc, hh, hp, ht]

/-- Witness for C7: the three outcomes at concrete file systems. -/
theorem from_file_error_discrimination_witness :
    AuthenticatedCredentials.from_file fsEmpty ".webapi/credentials"
      = .error .fileNotFound
    ∧ (∃ k, AuthenticatedCredentials.from_file fsNoToken ".webapi/credentials"
        = .error (.keyError k))
    ∧ AuthenticatedCredentials.from_file fsEx ".webapi/credentials"
      = .ok ⟨"www2.example.org", 4321, "FILE_TOKEN", Option.none⟩ :=
  ⟨(from_file_error_discrimination fsEmpty ".webapi/credentials").1 rfl,
   (from_file_error_discrimination fsNoToken ".webapi/credentials").2.1
     ⟨some "www2.example.org", some 4321, Option.none⟩ (by decide)
     (Or.inr (Or.inr rfl)),
   (from_file_error_discrimination fsEx ".webapi/credentials").2.2
     ⟨some "www2.example.org", some 4321, some "FILE_TOKEN"⟩
     "www2.example.org" "FILE_TOKEN" 4321 (by decide) rfl rfl rfl⟩

/- ===== C6: request path validation ===== -/

/-- C6: Request path validation — for every path not starting with `/`,
`Caller.request` fails with the `AssertionError` of
`assert path.startswith("/")` (the spec's `InvalidPathError`); for every
path starting with `/`, it succeeds and returns a request builder bound
to this caller (with the given path and the upper-cased method). -/
theorem request_path_validation (st : Store) (c : Caller) (m p : String)
    (hIn dIn : Option Addr) :
    (pyStartsWith p "/" = true →
      ∃ st' r, Caller.request st c m p hIn dIn = .ok (st', r)
        ∧ r.caller = c ∧ r.path = p ∧ r.method = pyUpper m)
    ∧ (pyStartsWith p "/" = false →
      Caller.request st c m p hIn dIn = .error .assertionError) := by
  constructor
  · intro hsw
    exact ⟨(requestBuilt st c m p hIn dIn).1, (requestBuilt st c m p hIn dIn).2,
      by unfold Caller.request; rw [if_pos hsw], rfl, rfl, rfl⟩
  · intro hsw
    unfold Caller.request
    rw [if_neg (by simp [hsw])]

/-- Witness for C6: `request("get", "/foo")` succeeds and
`request("get", "foo")` fails, over a store with no objects. -/
theorem request_path_validation_witness :
    (∃ st' r, Caller.request ⟨[]⟩ exCaller "get" "/foo" Option.none Option.none
        = .ok (st', r)
      ∧ r.caller = exCaller ∧ r.path = "/foo" ∧ r.method = pyUpper "get")
    ∧ Caller.request ⟨[]⟩ exCaller "get" "foo" Option.none Option.none
        = .error .assertionError :=
  ⟨(request_path_validation ⟨[]⟩ exCaller "get" "/foo" Option.none Option.none).1
     (by decide),
   (request_path_validation ⟨[]⟩ exCaller "get" "foo" Option.none Option.none).2
     (by decide)⟩

/- ===== C2: the 401 purge path of main.call ===== -/

/-- C2: the purge-on-401 path — the `except HttpResponseError` handler of
`call` (main.py) evaluates `caller.credentials.purge()` when the status
code is 401, but class `Caller` has no attribute `credentials` (it
exposes the credential as `session`), so the lookup raises
`AttributeError`, `purge()` is never reached and the file system is left
unchanged (so a persisted credential file still exists); for every other
status code nothing is purged and no error is raised by the handler. -/
theorem call_handler_401_no_purge (c : Caller) (fs : FileSys) (status : Int) :
    callExceptHandler c fs status
      = (fs, if status = 401
          then some (.attributeError "Caller" "credentials")
          else Option.none) := by
  by_cases hst : status = 401
  · subst hst
    rw [if_pos rfl]
    rfl
  · rw [if_neg hst]
    unfold callExceptHandler
    rw [if_neg hst]

/- ===== C4: input isolation of the built request ===== -/

/-- C4 counterexample: the body is NOT deep-copied at construction —
`self._data = data` stores the caller's object by reference. After
building a request from `c4store0` (body object at address 0), the
caller mutates its own body object in place (`c4store2`), and the body
rendered by `similar_of_curl()` changes, contradicting the claim that
the request is unaffected by later mutation of the caller's body. -/
theorem request_body_aliased_counterexample :
    Caller.request c4store0 exCaller "post" "/post" (some 1) (some 0)
      = .ok (c4store1, c4req)
    ∧ Request.similar_of_curl c4store2 c4req
        ≠ Request.similar_of_curl c4store1 c4req :=
  ⟨rfl, by decide⟩

/-- C4 (amended): the headers mapping IS deep-copied at construction
(to a fresh address), so mutating any pre-existing object — in
particular the caller's own headers object — changes neither the stored
headers object nor the result of `headers()`; `url()` reads no stored
object at all; the body, by contrast, is kept by reference
(`r.dataAddr = dIn`), so mutations of the caller's body object remain
visible to the request. -/
theorem request_headers_isolated (st : Store) (c : Caller) (m p : String)
    (hIn dIn : Option Addr) (st' : Store) (r : Request)
    (hreq : Caller.request st c m p hIn dIn = .ok (st', r)) :
    r.dataAddr = dIn
    ∧ ∀ (a : Addr) (v : PyVal), a < st.objs.length →
        (st'.write a v).read r.headersAddr = st'.read r.headersAddr
        ∧ Request.headersVal (st'.write a v) r = Request.headersVal st' r := by
  unfold Caller.request at hreq
  by_cases hsw : pyStartsWith p "/" = true
  · rw [if_pos hsw] at hreq
    injection hreq with hpair
    have hfst : (requestBuilt st c m p hIn dIn).1 = st' := congrArg Prod.fst hpair
    have hsnd : (requestBuilt st c m p hIn dIn).2 = r := congrArg Prod.snd hpair
    subst hfst
    subst hsnd
    refine ⟨rfl, ?_⟩
    intro a v ha
    have hne : a ≠ st.objs.length := Nat.ne_of_lt ha
    have hread :
        (Store.write (requestBuilt st c m p hIn dIn).1 a v).read
            ((requestBuilt st c m p hIn dIn).2.headersAddr)
          = (requestBuilt st c m p hIn dIn).1.read
              ((requestBuilt st c m p hIn dIn).2.headersAddr) := by
      show ((st.objs ++ [headersCopied st hIn]).set a v)[st.objs.length]?
          = (st.objs ++ [headersCopied st hIn])[st.objs.length]?
      exact List.getElem?_set_ne hne
    refine ⟨hread, ?_⟩
    unfold Request.headersVal
    rw [hread]
  · rw [if_neg hsw] at hreq
    exact Except.noConfusion hreq

/-- Witness for C4 (amended): mutating the caller's headers object
(address 1) after construction leaves the request's stored headers and
`headers()` unchanged, while the body address is the caller's own. -/
theorem request_headers_isolated_witness :
    c4req.dataAddr = some 0
    ∧ ((c4store1.write 1 (PyVal.dict [])).read c4req.headersAddr
          = c4store1.read c4req.headersAddr
       ∧ Request.headersVal (c4store1.write 1 (PyVal.dict [])) c4req
          = Request.headersVal c4store1 c4req) :=
  ⟨(request_headers_isolated c4store0 exCaller "post" "/post" (some 1) (some 0)
      c4store1 c4req rfl).1,
   (request_headers_isolated c4store0 exCaller "post" "/post" (some 1) (some 0)
      c4store1 c4req rfl).2 1 (PyVal.dict []) (by decide)⟩

/- ===== C8: token masking in AuthenticatedCredentials.__repr__ ===== -/

/-- C8 counterexample: the representation does not contain the token for
typical tokens, but not for EVERY token value — a credential whose
access token is literally `****` has a representation containing that
token (the mask itself), refuting the universally quantified claim. -/
theorem authenticated_repr_token_collision :
    AuthenticatedCredentials.access_token
        ⟨"www.example.com", 443, "****", Option.none⟩ = "****"
    ∧ strContains
        (AuthenticatedCredentials.reprStr
          ⟨"www.example.com", 443, "****", Option.none⟩)
        (AuthenticatedCredentials.access_token
          ⟨"www.example.com", 443, "****", Option.none⟩) :=
  ⟨rfl, by decide⟩

/-- C8 (amended): the representation never interpolates the access
token — it is a function of host and port alone, with the token slot
always the fixed mask `'****'`; consequently the representation does not
contain the token whenever the token does not already occur in that
token-independent text (as it does when the token coincides with the
mask or with host/port text). -/
theorem authenticated_repr_masks_token (h : String) (p : Int) (t t' : String)
    (hk hk' : Option PurgeHook) :
    AuthenticatedCredentials.reprStr ⟨h, p, t, hk⟩
      = AuthenticatedCredentials.reprStr ⟨h, p, t', hk'⟩
    ∧ (¬ strContains (AuthenticatedCredentials.reprStr ⟨h, p, "", hk'⟩) t →
        ¬ strContains (AuthenticatedCredentials.reprStr ⟨h, p, t, hk⟩) t) := by
  refine ⟨rfl, fun hn => ?_⟩
  exact hn

/-- Witness for C8 (amended) at a token occurring nowhere in the
masked representation. -/
theorem authenticated_repr_masks_token_witness :
    ¬ strContains
        (AuthenticatedCredentials.reprStr
          ⟨"www.example.com", 443, "SECRET_TOKEN_123", Option.none⟩)
        "SECRET_TOKEN_123" :=
  (authenticated_repr_masks_token "www.example.com" 443 "SECRET_TOKEN_123" ""
    Option.none Option.none).2 (by decide)

/- ===== C9: username in clear, password masked ===== -/

/-- Flattening a map that sends every element of the list to its
singleton returns the list. -/
theorem flatten_map_singleton {α : Type} (f : α → List α) :
    ∀ l : List α, (∀ x ∈ l, f x = [x]) → (l.map f).flatten = l := by
  intro l
  induction l with
  | nil => intro _; rfl
  | cons x rest ih =>
    intro hall
    have hx := hall x (by simp)
    simp only [List.map_cons, List.flatten_cons, hx]
    rw [ih (fun c hc => hall c (by simp [hc]))]
    rfl

/-- When no character of `u` needs escaping under a single-quote `repr`,
`pyStrRepr u` is `u` between two single quotes. -/
theorem pyStrRepr_plain (u : String)
    (hplain : ∀ ch ∈ u.data, pyReprChar squoteChar ch = [ch]) :
    pyStrRepr u = String.mk (squoteChar :: u.data ++ [squoteChar]) := by
  have hnq : containsChar u squoteChar = false := by
    by_contra hc
    have htrue : containsChar u squoteChar = true := by
      revert hc
      cases containsChar u squoteChar <;> simp
    have hmem : squoteChar ∈ u.data := by
      unfold containsChar at htrue
      obtain ⟨x, hx, hxx⟩ := List.any_eq_true.mp htrue
      have hxeq : x = squoteChar := eq_of_beq hxx
      rw [hxeq] at hx
      exact hx
    have heq := hplain squoteChar hmem
    rw [show pyReprChar squoteChar squoteChar = ['\\', squoteChar] from by decide]
      at heq
    exact absurd heq (by decide)
  have hq : pyQuoteChar u = squoteChar := by
    unfold pyQuoteChar
    rw [hnq]
    simp
  unfold pyStrRepr
  rw [hq, flatten_map_singleton _ u.data hplain]

/-- C9: the `Credentials` representation replaces the password with the
fixed mask `'****'` (it is independent of the password value), while the
username is interpolated through `repr` and therefore appears in it —
verbatim whenever none of its characters needs escaping. -/
theorem credentials_repr_username_clear (h : String) (p : Int)
    (u pw pw' : String) :
    Credentials.reprStr ⟨h, p, u, pw⟩ = Credentials.reprStr ⟨h, p, u, pw'⟩
    ∧ strContains (Credentials.reprStr ⟨h, p, u, pw⟩) (pyStrRepr u)
    ∧ strContains (Credentials.reprStr ⟨h, p, u, pw⟩) "'****'"
    ∧ ((∀ ch ∈ u.data, pyReprChar squoteChar ch = [ch]) →
        strContains (Credentials.reprStr ⟨h, p, u, pw⟩) u) := by
  have hu : strContains (Credentials.reprStr ⟨h, p, u, pw⟩) (pyStrRepr u) := by
    unfold Credentials.reprStr
    exact strContains_append_left _ _ _
      (strContains_append_right _ _ _ (strContains_refl _))
  refine ⟨rfl, hu, ?_, ?_⟩
  · unfold Credentials.reprStr
    exact strContains_append_right _ _ _ (by decide)
  · intro hplain
    have hinner : strContains (pyStrRepr u) u := by
      rw [pyStrRepr_plain u hplain]
      have hlist : u.data <:+: (squoteChar :: u.data ++ [squoteChar]) :=
        ⟨[squoteChar], [squoteChar], rfl⟩
      exact hlist
    exact strContains_trans _ _ _ hu hinner

/-- Witness for C9 at a username needing no escapes. -/
theorem credentials_repr_username_clear_witness :
    strContains (Credentials.reprStr ⟨"1.2.3.4", 1234, "foo", "bar"⟩) "foo" :=
  (credentials_repr_username_clear "1.2.3.4" 1234 "foo" "bar" "baz").2.2.2
    (by decide)

/- ===== C5: lru_cache(maxsize=1) memoization ===== -/

/-- Every value returned through the shared cache is the correct
computation for the calling instance (provided the cache entry, if any,
is itself correct): repeated calls on the same instance always return
equivalent results, whatever the interleaving. -/
theorem lruRun_values {α : Type} (f : Nat → α) :
    ∀ (calls : List Nat) (c : LruCache1 α),
    (∀ j v, c.entry = some (j, v) → v = f j) →
    ∀ t ∈ lruRun f c calls, t.2.1 = f t.1 := by
  intro calls
  induction calls with
  | nil =>
    intro c _ t ht
    simp [lruRun] at ht
  | cons i rest ih =>
    intro c hc t ht
    have hsound : ∀ j v, (⟨some (i, f i)⟩ : LruCache1 α).entry = some (j, v)
        → v = f j := by
      intro j v hjv
      injection hjv with hp
      injection hp with h1 h2
      rw [← h2, ← h1]
    rcases hce : c.entry with _ | ⟨j, v⟩
    · rw [show lruRun f c (i :: rest)
            = (i, f i, true) :: lruRun f ⟨some (i, f i)⟩ rest from by
          simp [lruRun, lruCall1, hce]] at ht
      rcases List.mem_cons.mp ht with rfl | ht
      · rfl
      · exact ih ⟨some (i, f i)⟩ hsound t ht
    · by_cases hji : j = i
      · subst hji
        rw [show lruRun f c (j :: rest)
              = (j, v, false) :: lruRun f c rest from by
            simp [lruRun, lruCall1, hce]] at ht
        rcases List.mem_cons.mp ht with rfl | ht
        · exact hc j v hce
        · exact ih c hc t ht
      · rw [show lruRun f c (i :: rest)
              = (i, f i, true) :: lruRun f ⟨some (i, f i)⟩ rest from by
            simp [lruRun, lruCall1, hce, hji]] at ht
        rcases List.mem_cons.mp ht with rfl | ht
        · rfl
        · exact ih ⟨some (i, f i)⟩ hsound t ht

/-- Once the cache holds instance `i`'s value, a run of calls all made by
instance `i` hits the cache every time: no recomputation at all. -/
theorem lruRun_hits {α : Type} (f : Nat → α) (i : Nat) (w : α) :
    ∀ (calls : List Nat), (∀ j ∈ calls, j = i) →
    lruRun f ⟨some (i, w)⟩ calls = calls.map (fun j => (j, w, false)) := by
  intro calls
  induction calls with
  | nil => intro _; rfl
  | cons j rest ih =>
    intro hall
    have hj : j = i := hall j (by simp)
    subst hj
    rw [show lruRun f ⟨some (j, w)⟩ (j :: rest)
          = (j, w, false) :: lruRun f ⟨some (j, w)⟩ rest from by
        simp [lruRun, lruCall1]]
    rw [ih (fun c hc => hall c (by simp [hc]))]
    rfl

/-- Hit-only runs contribute no misses to the count. -/
theorem lruFilter_map_false {α : Type} (i : Nat) (w : α) :
    ∀ (calls : List Nat),
    ((calls.map (fun j => (j, w, false))).filter
        (fun t => t.1 == i && t.2.2)).length = 0 := by
  intro calls
  induction calls with
  | nil => rfl
  | cons j rest ih =>
    simp only [List.map_cons, List.filter_cons]
    rw [show ((j, w, false).1 == i && (j, w, false).2.2) = false from by simp]
    exact ih

/-- A call sequence made entirely by one instance computes its value at
most once (exactly once when the sequence is non-empty). -/
theorem lruMissCount_single {α : Type} (f : Nat → α) (i : Nat) :
    ∀ (calls : List Nat), (∀ j ∈ calls, j = i) →
    lruMissCount f ⟨Option.none⟩ calls i ≤ 1 := by
  intro calls hall
  cases calls with
  | nil => simp [lruMissCount, lruRun]
  | cons j rest =>
    have hj : j = i := hall j (by simp)
    subst hj
    unfold lruMissCount
    rw [show lruRun f ⟨Option.none⟩ (j :: rest)
          = (j, f j, true) :: lruRun f ⟨some (j, f j)⟩ rest from by
        simp [lruRun, lruCall1]]
    rw [lruRun_hits f j (f j) rest (fun c hc => hall c (by simp [hc]))]
    simp only [List.filter_cons]
    rw [show ((j, f j, true).1 == j && (j, f j, true).2.2) = true from by simp]
    simp [lruFilter_map_false]

/-- C5 counterexample: the `lru_cache(maxsize=1)` cache is shared by ALL
request instances, so when two instances alternate
(`[A.url, B.url, A.url]`) each call evicts the other's entry and the
`url()` body runs twice for instance A — the claim that `url()` is
computed at most once per instance under every interleaving is false. -/
theorem lru_memoization_counterexample :
    lruMissCount (urlOfIdx c5reqs) ⟨Option.none⟩ [0, 1, 0] 0 = 2
    ∧ urlOfIdx c5reqs 0 = "https://www.example.com:9999/a"
    ∧ urlOfIdx c5reqs 1 = "https://www.example.com:9999/b" := by
  refine ⟨by decide, by decide, by decide⟩

/-- C5 (amended): repeated `url()`/`headers()` calls always return
equivalent results within an instance, under every interleaving (the
computations are pure per instance); but the value is computed — and for
`headers()` the `credential_applier` applied — at most once per instance
only for call sequences not interleaved with other instances, because
the single `lru_cache(maxsize=1)` entry is shared across instances. -/
theorem lru_memoization_amended (reqs : List Request) (st : Store)
    (calls : List Nat) (i : Nat) :
    (∀ t ∈ lruRun (urlOfIdx reqs) ⟨Option.none⟩ calls,
       t.2.1 = urlOfIdx reqs t.1)
    ∧ (∀ t ∈ lruRun (headersOfIdx st reqs) ⟨Option.none⟩ calls,
        t.2.1 = headersOfIdx st reqs t.1)
    ∧ ((∀ j ∈ calls, j = i) →
        lruMissCount (urlOfIdx reqs) ⟨Option.none⟩ calls i ≤ 1
        ∧ lruMissCount (headersOfIdx st reqs) ⟨Option.none⟩ calls i ≤ 1) :=
  ⟨lruRun_values _ calls ⟨Option.none⟩ (fun _ _ hx => Option.noConfusion hx),
   lruRun_values _ calls ⟨Option.none⟩ (fun _ _ hx => Option.noConfusion hx),
   fun hall => ⟨lruMissCount_single _ i calls hall,
     lruMissCount_single _ i calls hall⟩⟩

/-- Witness for C5 (amended): three consecutive `url()`/`headers()`
calls by the same instance compute at most once. -/
theorem lru_memoization_amended_witness :
    "https://www.example.com:9999/a" = urlOfIdx c5reqs 0
    ∧ (lruMissCount (urlOfIdx c5reqs) ⟨Option.none⟩ [0, 0, 0] 0 ≤ 1
       ∧ lruMissCount (headersOfIdx ⟨[]⟩ c5reqs) ⟨Option.none⟩ [0, 0, 0] 0 ≤ 1) :=
  ⟨(lru_memoization_amended c5reqs ⟨[]⟩ [0] 0).1
      (0, "https://www.example.com:9999/a", true) (by decide),
   (lru_memoization_amended c5reqs ⟨[]⟩ [0, 0, 0] 0).2.2 (by decide)⟩

/- ===== C10: similar_of_curl body flags ===== -/

/-- The chosen quote is one of the two quote characters. -/
theorem pyQuoteChar_cases (s : String) :
    pyQuoteChar s = squoteChar ∨ pyQuoteChar s = dquoteChar := by
  unfold pyQuoteChar
  by_cases hc : (containsChar s squoteChar && !(containsChar s dquoteChar)) = true
  · right
    rw [if_pos hc]
  · left
    rw [if_neg hc]

/-- A Python string `repr` always starts with a quote, so it is never the
token `--data`. -/
theorem pyStrRepr_ne_dataflag (s : String) : pyStrRepr s ≠ "--data" := by
  intro h
  have hd := congrArg String.data h
  unfold pyStrRepr at hd
  rw [show (String.mk (pyQuoteChar s
        :: (s.data.map (pyReprChar (pyQuoteChar s))).flatten
        ++ [pyQuoteChar s])).data
      = pyQuoteChar s
        :: ((s.data.map (pyReprChar (pyQuoteChar s))).flatten
            ++ [pyQuoteChar s]) from rfl] at hd
  rw [show ("--data" : String).data = '-' :: "-data".data from rfl] at hd
  injection hd with h1 _
  rcases pyQuoteChar_cases s with hq | hq <;> rw [hq] at h1 <;>
    exact absurd h1 (by decide)

/-- The composed URL starts with `https://`, so it is never the token
`--data`. -/
theorem url_ne_dataflag (r : Request) : Request.url r ≠ "--data" := by
  intro h
  have hdata : (Request.url r).data
      = "https://".data ++ (r.caller.session.host.data ++ (":".data
        ++ ((pyIntRepr r.caller.session.port).data ++ r.path.data))) := by
    unfold Request.url
    simp [strData_append, List.append_assoc]
  rw [h] at hdata
  rw [show ("https://".data : List Char) = 'h' :: "ttps://".data from rfl]
    at hdata
  rw [List.cons_append] at hdata
  rw [show ("--data" : String).data = '-' :: "-data".data from rfl] at hdata
  injection hdata with h1 _
  exact absurd h1 (by decide)

/-- `--data` never occurs among the header tokens: they alternate `-H`
with quoted `repr` strings. -/
theorem curlHeaderTokens_ne_dataflag (st : Store) (r : Request) :
    "--data" ∉ r.curlHeaderTokens st := by
  intro hmem
  unfold Request.curlHeaderTokens at hmem
  rcases List.mem_flatten.mp hmem with ⟨sub, hsub, hin⟩
  rcases List.mem_map.mp hsub with ⟨kv, _, rfl⟩
  simp only [List.mem_cons, List.not_mem_nil, or_false] at hin
  rcases hin with h | h
  · exact absurd h (by decide)
  · exact pyStrRepr_ne_dataflag _ h.symm

/-- `--data` never occurs among the base tokens when the method is one of
the five the CLI accepts. -/
theorem curlBase_ne_dataflag (r : Request)
    (hm : r.method ∈ (["GET", "POST", "PUT", "PATCH", "DELETE"] : List String)) :
    "--data" ∉ r.curlBase := by
  intro hmem
  unfold Request.curlBase at hmem
  simp only [List.mem_cons, List.not_mem_nil, or_false] at hmem
  rcases hmem with h | h | h | h
  · exact absurd h (by decide)
  · exact absurd h (by decide)
  · simp only [List.mem_cons, List.not_mem_nil, or_false] at hm
    rcases hm with hm | hm | hm | hm | hm <;> rw [hm] at h <;>
      exact absurd h (by decide)
  · exact url_ne_dataflag r h.symm

/-- C10 counterexample: with body `None` (falsy) but a caller-supplied
header `Content-Type: application/json`, the rendered command line DOES
contain the `Content-Type: application/json` header flag, refuting the
claim that for a falsy body neither flag appears. -/
theorem curl_flags_counterexample :
    Caller.request c10store0 exCaller "get" "/x" (some 0) Option.none
      = .ok (c10store1, c10req)
    ∧ (Request.dataVal c10store1 c10req).truthy = false
    ∧ "'Content-Type: application/json'"
        ∈ Request.similar_of_curl_tokens c10store1 c10req :=
  ⟨rfl, rfl, by decide⟩

/-- C10 (amended): `similar_of_curl` APPENDS the `Content-Type` flag and
the `--data` flag exactly when the stored body is truthy: for a falsy
body (`None`, `{}`, `[]`) the token list is exactly the base and header
tokens, and the `--data` flag appears nowhere at all; the `Content-Type`
flag can then still appear, but only as one of the request's own
rendered headers. -/
theorem curl_data_flags_amended (st : Store) (r : Request)
    (hm : r.method ∈ (["GET", "POST", "PUT", "PATCH", "DELETE"] : List String)) :
    ((r.dataVal st).truthy = false →
      Request.similar_of_curl_tokens st r = r.curlBase ++ r.curlHeaderTokens st)
    ∧ ((r.dataVal st).truthy = true →
      pyStrRepr "Content-Type: application/json"
          ∈ Request.similar_of_curl_tokens st r
      ∧ "--data" ∈ Request.similar_of_curl_tokens st r)
    ∧ ("--data" ∈ Request.similar_of_curl_tokens st r
        ↔ (r.dataVal st).truthy = true) := by
  have hfalse : (r.dataVal st).truthy = false →
      Request.similar_of_curl_tokens st r
        = r.curlBase ++ r.curlHeaderTokens st := by
    intro hf
    unfold Request.similar_of_curl_tokens
    rw [hf]
    simp
  have htrue : (r.dataVal st).truthy = true →
      pyStrRepr "Content-Type: application/json"
          ∈ Request.similar_of_curl_tokens st r
      ∧ "--data" ∈ Request.similar_of_curl_tokens st r := by
    intro ht
    unfold Request.similar_of_curl_tokens Request.curlDataTokens
    rw [ht]
    constructor <;> simp
  refine ⟨hfalse, htrue, ?_, fun ht => (htrue ht).2⟩
  intro hmem
  by_contra hne
  have hf : (r.dataVal st).truthy = false := by
    revert hne
    cases (r.dataVal st).truthy <;> simp
  rw [hfalse hf] at hmem
  rcases List.mem_append.mp hmem with h | h
  · exact curlBase_ne_dataflag r hm h
  · exact curlHeaderTokens_ne_dataflag st r h

/-- Witness for C10 (amended) at the concrete falsy-body request. -/
theorem curl_data_flags_amended_witness :
    Request.similar_of_curl_tokens c10store1 c10req
      = c10req.curlBase ++ c10req.curlHeaderTokens c10store1
    ∧ ("--data" ∈ Request.similar_of_curl_tokens c10store1 c10req
        ↔ (Request.dataVal c10store1 c10req).truthy = true) :=
  ⟨(curl_data_flags_amended c10store1 c10req (by decide)).1 rfl,
   (curl_data_flags_amended c10store1 c10req (by decide)).2.2⟩
